import Mathlib

/-!
Shallow embedding of the ledger / acquisition engine of the Code-Astra
storefront (src/services/mockApi.ts together with the record shapes of
src/types.ts).  The Firestore collections `users`, `products`,
`transactions` and `requests` are modelled as lists inside a `Store`
record; `updateDoc` with `increment` becomes a functional update of the
matching record, `addDoc` appends a freshly identified record, and a
thrown `Error` becomes an `ApiError` value returned next to the
post-failure store.  Presentation-only record fields that no modelled
operation reads or writes (bio, avatar, role, reputation, joinedAt,
rating, reviews, images, links, category, tags, downloadCount,
lastUpdate, isPriority) are omitted.
-/

namespace CodeAstra

/-- `SavedFilter` from src/types.ts. -/
structure SavedFilter where
  id : String
  label : String
  searchTerm : String
  category : String
deriving DecidableEq

/-- `NotificationSettings` from src/types.ts. -/
structure NotificationSettings where
  emailNotifyApproval : Bool
  emailNotifyReview : Bool
  emailNotifyPurchase : Bool
deriving DecidableEq

/-- `User` from src/types.ts (ledger-relevant fields). -/
structure User where
  uid : String
  name : String
  email : String
  wishlist : List String
  savedFilters : List SavedFilter
  walletBalance : Int
  isPro : Bool
  proExpiry : Option Int
  notificationSettings : NotificationSettings
deriving DecidableEq

/-- `Product` from src/types.ts (moderation-relevant fields).  The
`rejected` field does not appear in the `Product` interface but is
written by `rejectProduct`. -/
structure Product where
  id : String
  title : String
  price : Int
  sellerId : String
  approved : Bool
  rejected : Bool
  createdAt : Int
  salesCount : Int
  viewCount : Int
deriving DecidableEq

/-- `RequestStatus` from src/types.ts. -/
inductive RequestStatus where
  | pending
  | approved
  | rejected
deriving DecidableEq

/-- `Request` from src/types.ts. -/
structure Request where
  id : String
  userId : String
  productId : String
  paymentProof : String
  status : RequestStatus
  approvedAt : Option Int
  createdAt : Int
  isWalletPurchase : Bool
deriving DecidableEq

/-- The `type` field of `Transaction` from src/types.ts. -/
inductive TxType where
  | deposit
  | purchase
  | withdrawal
  | subscription
deriving DecidableEq

/-- `Transaction` from src/types.ts. -/
structure Transaction where
  id : String
  userId : String
  amount : Int
  txType : TxType
  description : String
  createdAt : Int
deriving DecidableEq

/-- The Firestore database backing the mock API: one list per collection,
plus a counter used to mint fresh document ids (Firestore's `addDoc`
generates an opaque fresh id; no modelled code inspects its text). -/
structure Store where
  users : List User
  products : List Product
  transactions : List Transaction
  requests : List Request
  nextId : Nat
deriving DecidableEq

/-- Errors observable from the modelled operations: `Entity missing` and
`Insufficient balance` thrown by `createRequest`, the Pro-upgrade
`Insufficient balance for Pro upgrade` thrown by `upgradeToPro`, and the
`not-found` failure Firestore raises when `updateDoc` targets a missing
document. -/
inductive ApiError where
  | entityMissing
  | insufficientBalance
  | insufficientProBalance
  | notFound
deriving DecidableEq

/-- `true` exactly on non-error results (a call that did not throw). -/
def resultOk {α : Type} : Except ApiError α → Bool
  | Except.ok _ => true
  | Except.error _ => false

instance {ε α : Type} [DecidableEq ε] [DecidableEq α] : DecidableEq (Except ε α) := fun a b =>
  match a, b with
  | Except.ok x, Except.ok y =>
    if h : x = y then isTrue (h ▸ rfl) else isFalse (fun hc => h (Except.ok.inj hc))
  | Except.ok _, Except.error _ => isFalse (fun hc => Except.noConfusion hc)
  | Except.error _, Except.ok _ => isFalse (fun hc => Except.noConfusion hc)
  | Except.error e, Except.error e2 =>
    if h : e = e2 then isTrue (h ▸ rfl) else isFalse (fun hc => h (Except.error.inj hc))

/-- `getDoc(doc(db,'users',uid))`: first user document with the given id. -/
def getUser (s : Store) (uid : String) : Option User :=
  s.users.find? (fun u => u.uid == uid)

/-- `getDoc(doc(db,'products',id))`: first product document with the given id. -/
def findProduct (s : Store) (pid : String) : Option Product :=
  s.products.find? (fun p => p.id == pid)

/-- `updateDoc(doc(db,'users',uid), ...)`: rewrite the matching user document. -/
def updateUser (s : Store) (uid : String) (f : User → User) : Store :=
  { s with users := s.users.map (fun u => if u.uid == uid then f u else u) }

/-- `updateDoc(doc(db,'products',id), ...)`: rewrite the matching product document. -/
def updateProduct (s : Store) (pid : String) (f : Product → Product) : Store :=
  { s with products := s.products.map (fun p => if p.id == pid then f p else p) }

/-- Mint the id `addDoc` would give the next created document. -/
def freshId (s : Store) : String × Store :=
  ("doc" ++ toString s.nextId, { s with nextId := s.nextId + 1 })

/-- The defaulted `NotificationSettings` of mockApi.ts. -/
def defaultSettings : NotificationSettings :=
  { emailNotifyApproval := true, emailNotifyReview := true, emailNotifyPurchase := true }

/-- The user document `api.register` stores for a fresh identity
(`api.syncExternalUser` stores the same ledger-relevant shape). -/
def registeredUser (uid name email : String) : User :=
  { uid := uid, name := name, email := email, wishlist := [], savedFilters := [],
    walletBalance := 0, isPro := false, proExpiry := none,
    notificationSettings := defaultSettings }

/-- `api.register` after a successful Firebase-Auth account creation (the
gateway guarantees the new uid is fresh, see `Step.register`). -/
def register (s : Store) (uid name email : String) : Store :=
  { s with users := s.users ++ [registeredUser uid name email] }

/-- `api.addFunds`: unconditionally `increment` the wallet balance, append a
`deposit` transaction, and return the re-read balance (`|| 0`).  The
initial `updateDoc` fails with Firestore `not-found` when no such user
document exists. -/
def addFunds (s : Store) (userId : String) (amount : Int) (now : Int) :
    Except ApiError Int × Store :=
  match getUser s userId with
  | none => (Except.error ApiError.notFound, s)
  | some _ =>
    let s1 := updateUser s userId (fun u => { u with walletBalance := u.walletBalance + amount })
    let t : Transaction :=
      ⟨(freshId s1).1, userId, amount, TxType.deposit,
        "Wallet Deposit via Secure Gateway", now⟩
    let s2 := { (freshId s1).2 with transactions := (freshId s1).2.transactions ++ [t] }
    (Except.ok (match getUser s2 userId with
                | some u => u.walletBalance
                | none => 0), s2)

/-- `api.upgradeToPro`: returns `null` for an unknown user, throws below a
hard-coded balance of 999, otherwise debits 999, sets `isPro` and
`proExpiry = now + 365 * 86400000`, and appends one `subscription`
transaction of -999. -/
def upgradeToPro (s : Store) (userId : String) (now : Int) :
    Except ApiError (Option User) × Store :=
  match getUser s userId with
  | none => (Except.ok none, s)
  | some user =>
    if user.walletBalance < 999 then (Except.error ApiError.insufficientProBalance, s)
    else
      let s1 := updateUser s userId (fun u =>
        { u with walletBalance := u.walletBalance - 999, isPro := true,
                 proExpiry := some (now + 365 * 86400000) })
      let t : Transaction :=
        ⟨(freshId s1).1, userId, -999, TxType.subscription,
          "Elite Pro Subscription (1 Year)", now⟩
      let s2 := { (freshId s1).2 with transactions := (freshId s1).2.transactions ++ [t] }
      (Except.ok (getUser s2 userId), s2)

/-- `api.getProductById`: when the product exists, bump its `viewCount` by
one and return the data read before the bump; otherwise return `null`. -/
def getProductById (s : Store) (pid : String) : Option Product × Store :=
  match findProduct s pid with
  | some p => (some p, updateProduct s pid (fun q => { q with viewCount := q.viewCount + 1 }))
  | none => (none, s)

/-- `api.submitProduct`: store a new product, unapproved, with all counters
at zero. -/
def submitProduct (s : Store) (userId title : String) (price : Int) (now : Int) :
    Product × Store :=
  let p : Product :=
    ⟨(freshId s).1, title, price, userId, false, false, now, 0, 0⟩
  (p, { (freshId s).2 with products := (freshId s).2.products ++ [p] })

/-- `api.createRequest`: read the user and (view-counting) the product,
throw `Entity missing` when either is absent; for a wallet purchase check
the balance, debit the price, bump `salesCount` and append a `purchase`
transaction; finally store the new request, `APPROVED` immediately for a
wallet purchase and `PENDING` otherwise. -/
def createRequest (s : Store) (userId productId : String) (paymentProof : Option String)
    (isWalletPurchase : Bool) (now : Int) : Except ApiError Request × Store :=
  match getUser s userId, getProductById s productId with
  | some u, (some p, s1) =>
    if isWalletPurchase then
      if u.walletBalance < p.price then (Except.error ApiError.insufficientBalance, s1)
      else
        let s2 := updateUser s1 userId (fun v => { v with walletBalance := v.walletBalance - p.price })
        let s3 := updateProduct s2 productId (fun q => { q with salesCount := q.salesCount + 1 })
        let t : Transaction :=
          ⟨(freshId s3).1, userId, -p.price, TxType.purchase,
            "Purchased " ++ p.title, now⟩
        let s4 := { (freshId s3).2 with transactions := (freshId s3).2.transactions ++ [t] }
        let req : Request :=
          ⟨(freshId s4).1, userId, productId, paymentProof.getD "",
            RequestStatus.approved, some now, now, true⟩
        (Except.ok req, { (freshId s4).2 with requests := (freshId s4).2.requests ++ [req] })
    else
      let req : Request :=
        ⟨(freshId s1).1, userId, productId, paymentProof.getD "",
          RequestStatus.pending, none, now, false⟩
      (Except.ok req, { (freshId s1).2 with requests := (freshId s1).2.requests ++ [req] })
  | _, (_, s1) => (Except.error ApiError.entityMissing, s1)

/-- `api.approveProduct`: unconditionally set `approved := true` (Firestore
`updateDoc` fails `not-found` on a missing document). -/
def approveProduct (s : Store) (productId : String) : Except ApiError Bool × Store :=
  match findProduct s productId with
  | none => (Except.error ApiError.notFound, s)
  | some _ => (Except.ok true, updateProduct s productId (fun p => { p with approved := true }))

/-- `api.rejectProduct`: unconditionally set `approved := false` and
`rejected := true`. -/
def rejectProduct (s : Store) (productId : String) : Except ApiError Bool × Store :=
  match findProduct s productId with
  | none => (Except.error ApiError.notFound, s)
  | some _ =>
    (Except.ok true,
      updateProduct s productId (fun p => { p with approved := false, rejected := true }))

/-- `api.toggleWishlist`: returns `[]` for an unknown user; otherwise
removes every copy of the id when present (`filter(id !== productId)`),
appends it when absent (`push`), and stores the new list. -/
def toggleWishlist (s : Store) (userId productId : String) : List String × Store :=
  match getUser s userId with
  | none => ([], s)
  | some u =>
    let wishlist :=
      if u.wishlist.contains productId then u.wishlist.filter (fun id => id != productId)
      else u.wishlist ++ [productId]
    (wishlist, updateUser s userId (fun v => { v with wishlist := wishlist }))

/-- `api.saveUserFilter`: append the filter with a timestamp-derived id. -/
def saveUserFilter (s : Store) (userId label searchTerm category : String) (now : Int) :
    List SavedFilter × Store :=
  match getUser s userId with
  | none => ([], s)
  | some u =>
    let newFilters := u.savedFilters ++ [⟨"filt" ++ toString now, label, searchTerm, category⟩]
    (newFilters, updateUser s userId (fun v => { v with savedFilters := newFilters }))

/-- `api.deleteUserFilter`: returns `[]` for an unknown user; otherwise
stores and returns `savedFilters` with every filter of that id removed. -/
def deleteUserFilter (s : Store) (userId filterId : String) : List SavedFilter × Store :=
  match getUser s userId with
  | none => ([], s)
  | some u =>
    let filtered := u.savedFilters.filter (fun f => f.id != filterId)
    (filtered, updateUser s userId (fun v => { v with savedFilters := filtered }))

/-- `api.updateNotificationSettings`: overwrite the settings record. -/
def updateNotificationSettings (s : Store) (userId : String)
    (settings : NotificationSettings) : Store :=
  updateUser s userId (fun v => { v with notificationSettings := settings })

/-- The database before any operation ran. -/
def initStore : Store := ⟨[], [], [], [], 0⟩

/-- Sum of the signed amounts of the transactions belonging to one account. -/
def ledgerSum (ts : List Transaction) (uid : String) : Int :=
  ((ts.filter (fun t => t.userId == uid)).map (fun t => t.amount)).sum

/-- One mock-API call, as a relation between the store before and after it.
`register` carries the Firebase-Auth guarantee that a newly created uid
does not collide with an existing user document. -/
inductive Step : Store → Store → Prop where
  | register (s : Store) (uid name email : String) (h : getUser s uid = none) :
      Step s (register s uid name email)
  | addFunds (s : Store) (userId : String) (amount now : Int) :
      Step s (addFunds s userId amount now).2
  | upgradeToPro (s : Store) (userId : String) (now : Int) :
      Step s (upgradeToPro s userId now).2
  | getProductById (s : Store) (pid : String) :
      Step s (getProductById s pid).2
  | submitProduct (s : Store) (userId title : String) (price now : Int) :
      Step s (submitProduct s userId title price now).2
  | createRequest (s : Store) (userId productId : String) (paymentProof : Option String)
      (isWalletPurchase : Bool) (now : Int) :
      Step s (createRequest s userId productId paymentProof isWalletPurchase now).2
  | approveProduct (s : Store) (pid : String) :
      Step s (approveProduct s pid).2
  | rejectProduct (s : Store) (pid : String) :
      Step s (rejectProduct s pid).2
  | toggleWishlist (s : Store) (userId pid : String) :
      Step s (toggleWishlist s userId pid).2
  | saveUserFilter (s : Store) (userId label searchTerm category : String) (now : Int) :
      Step s (saveUserFilter s userId label searchTerm category now).2
  | deleteUserFilter (s : Store) (userId fid : String) :
      Step s (deleteUserFilter s userId fid).2
  | updateNotificationSettings (s : Store) (userId : String) (n : NotificationSettings) :
      Step s (updateNotificationSettings s userId n)

/-- Stores reachable from the empty database by mock-API calls. -/
inductive Reachable : Store → Prop where
  | init : Reachable initStore
  | step {s s1 : Store} : Reachable s → Step s s1 → Reachable s1

/-- The ledger invariant: every transaction belongs to a stored account,
every stored account's transactions sum to its balance, and no stored
wishlist holds a duplicate id. -/
def Inv (s : Store) : Prop :=
  (∀ t ∈ s.transactions, (getUser s t.userId).isSome = true) ∧
  (∀ u ∈ s.users, ledgerSum s.transactions u.uid = u.walletBalance) ∧
  (∀ u ∈ s.users, u.wishlist.Nodup)

/-- Fixture: the spec scenario of a buyer holding 500. -/
def c1User : User := ⟨"u1", "Ada", "ada@x", [], [], 500, false, none, defaultSettings⟩

/-- Fixture: an approved product priced 999. -/
def c1Product : Product := ⟨"p1", "Asset", 999, "s9", true, false, 0, 0, 0⟩

/-- Fixture store for the insufficient-funds scenario. -/
def c1Store : Store := ⟨[c1User], [c1Product], [], [], 0⟩

/-- Fixture: a buyer holding 2000. -/
def c3User : User := ⟨"u1", "Ada", "ada@x", [], [], 2000, false, none, defaultSettings⟩

/-- Fixture: an approved product priced 500. -/
def c3Product : Product := ⟨"p1", "Asset", 500, "s9", true, false, 0, 0, 0⟩

/-- Fixture: an already-approved wallet-purchase request for (u1, p1). -/
def c3Request : Request := ⟨"r0", "u1", "p1", "", RequestStatus.approved, some 0, 0, true⟩

/-- Fixture store holding an active request for (u1, p1). -/
def c3Store : Store := ⟨[c3User], [c3Product], [], [c3Request], 0⟩

/-- Fixture: a still-pending product. -/
def c4Product : Product := ⟨"p1", "Asset", 100, "s9", false, false, 0, 0, 0⟩

/-- Fixture store for the moderation scenario. -/
def c4Store : Store := ⟨[], [c4Product], [], [], 0⟩

/-- Fixture: an account holding 1000 (the spec upgrade scenario). -/
def c5Rich : User := ⟨"u1", "Ada", "ada@x", [], [], 1000, false, none, defaultSettings⟩

/-- Fixture: an account holding 100, below the Pro fee. -/
def c5Poor : User := ⟨"u2", "Bo", "bo@x", [], [], 100, false, none, defaultSettings⟩

/-- Fixture store for the Pro-upgrade scenarios. -/
def c5Store : Store := ⟨[c5Rich, c5Poor], [], [], [], 0⟩

/-- Fixture: a buyer holding 2000. -/
def c6User : User := ⟨"u1", "Ada", "ada@x", [], [], 2000, false, none, defaultSettings⟩

/-- Fixture: a product priced 500 that was never approved. -/
def c6Product : Product := ⟨"p1", "Asset", 500, "s9", false, false, 0, 0, 0⟩

/-- Fixture store for the unapproved-product purchase. -/
def c6Store : Store := ⟨[c6User], [c6Product], [], [], 0⟩

/-- Fixture: an account holding 100. -/
def c7User : User := ⟨"u1", "Ada", "ada@x", [], [], 100, false, none, defaultSettings⟩

/-- Fixture store for the negative-deposit scenario. -/
def c7Store : Store := ⟨[c7User], [], [], [], 0⟩

/-- Fixture: an account whose wishlist holds p1 then p2. -/
def c9User : User := ⟨"u1", "Ada", "ada@x", ["p1", "p2"], [], 0, false, none, defaultSettings⟩

/-- Fixture store for the wishlist double-toggle counterexample. -/
def c9Store : Store := ⟨[c9User], [], [], [], 0⟩

/-- A store reached from the empty database by registering u1 and toggling
p1 then p2 onto the wishlist. -/
def c9WitStore : Store :=
  (toggleWishlist (toggleWishlist (register initStore "u1" "Ada" "ada@x") "u1" "p1").2
    "u1" "p2").2

/-- The user document stored in `c9WitStore`. -/
def c9WitUser : User :=
  ⟨"u1", "Ada", "ada@x", ["p1", "p2"], [], 0, false, none, defaultSettings⟩

/-- Fixture: a saved filter. -/
def c10Filter : SavedFilter := ⟨"f1", "Cheap", "mesh", "All"⟩

/-- Fixture: an account with one saved filter. -/
def c10User : User := ⟨"u1", "Ada", "ada@x", [], [c10Filter], 0, false, none, defaultSettings⟩

/-- Fixture store for the delete-unknown-filter scenario. -/
def c10Store : Store := ⟨[c10User], [], [], [], 0⟩

/-- A store reached from the empty database by registering u1 and
depositing 500. -/
def c2WitStore : Store := (addFunds (register initStore "u1" "Ada" "ada@x") "u1" 500 7).2

/-- The user document stored in `c2WitStore`. -/
def c2WitUser : User := ⟨"u1", "Ada", "ada@x", [], [], 500, false, none, defaultSettings⟩

theorem find?_map_update_self {α : Type} (key : α → String) (f : α → α)
    (hf : ∀ a, key (f a) = key a) (k : String) (l : List α) :
    (l.map (fun a => if key a == k then f a else a)).find? (fun a => key a == k)
      = (l.find? (fun a => key a == k)).map f := by
  induction l with
  | nil => rfl
  | cons a l ih =>
    by_cases hk : key a = k
    · have hb : (key a == k) = true := beq_iff_eq.mpr hk
      have hfb : (key (f a) == k) = true := by rw [hf]; exact hb
      rw [List.map_cons, if_pos hb, List.find?_cons, List.find?_cons, hfb, hb]
      rfl
    · have hb : (key a == k) = false := beq_eq_false_iff_ne.mpr hk
      have hnb : ¬ ((key a == k) = true) := by simp [hb]
      rw [List.map_cons, if_neg hnb, List.find?_cons, List.find?_cons, hb]
      exact ih

theorem find?_map_update_other {α : Type} (key : α → String) (f : α → α)
    (hf : ∀ a, key (f a) = key a) (k k' : String) (hkk : k' ≠ k) (l : List α) :
    (l.map (fun a => if key a == k then f a else a)).find? (fun a => key a == k')
      = l.find? (fun a => key a == k') := by
  induction l with
  | nil => rfl
  | cons a l ih =>
    by_cases hk : key a = k
    · have hb : (key a == k) = true := beq_iff_eq.mpr hk
      have h'b : (key a == k') = false := by
        rw [hk]
        exact beq_eq_false_iff_ne.mpr (Ne.symm hkk)
      have hfb : (key (f a) == k') = false := by rw [hf]; exact h'b
      rw [List.map_cons, if_pos hb, List.find?_cons, List.find?_cons, hfb, h'b]
      exact ih
    · have hb : (key a == k) = false := beq_eq_false_iff_ne.mpr hk
      have hnb : ¬ ((key a == k) = true) := by simp [hb]
      by_cases hk' : key a = k'
      · have h'b : (key a == k') = true := beq_iff_eq.mpr hk'
        rw [List.map_cons, if_neg hnb, List.find?_cons, List.find?_cons, h'b]
      · have h'b : (key a == k') = false := beq_eq_false_iff_ne.mpr hk'
        rw [List.map_cons, if_neg hnb, List.find?_cons, List.find?_cons, h'b]
        exact ih

theorem getUser_updateUser_self (s : Store) (uid : String) (f : User → User)
    (hf : ∀ v, (f v).uid = v.uid) :
    getUser (updateUser s uid f) uid = (getUser s uid).map f :=
  find?_map_update_self User.uid f hf uid s.users

theorem getUser_updateUser_other (s : Store) (uid uid' : String) (f : User → User)
    (hf : ∀ v, (f v).uid = v.uid) (h : uid' ≠ uid) :
    getUser (updateUser s uid f) uid' = getUser s uid' :=
  find?_map_update_other User.uid f hf uid uid' h s.users

theorem findProduct_updateProduct_self (s : Store) (pid : String) (f : Product → Product)
    (hf : ∀ p, (f p).id = p.id) :
    findProduct (updateProduct s pid f) pid = (findProduct s pid).map f :=
  find?_map_update_self Product.id f hf pid s.products

theorem getUser_mem (s : Store) (uid : String) (u : User) (h : getUser s uid = some u) :
    u ∈ s.users ∧ u.uid = uid := by
  unfold getUser at h
  have hp := List.find?_some h
  exact ⟨List.mem_of_find?_eq_some h, eq_of_beq hp⟩

theorem ledgerSum_append_singleton (ts : List Transaction) (t : Transaction) (k : String) :
    ledgerSum (ts ++ [t]) k
      = ledgerSum ts k + (if (t.userId == k) = true then t.amount else 0) := by
  simp only [ledgerSum, List.filter_append, List.map_append, List.sum_append]
  by_cases h : (t.userId == k) = true
  · simp [h]
  · simp [h]

theorem ledgerSum_eq_zero (ts : List Transaction) (k : String)
    (h : ∀ t ∈ ts, (t.userId == k) = false) : ledgerSum ts k = 0 := by
  have : ts.filter (fun t => t.userId == k) = [] := by
    rw [List.filter_eq_nil_iff]
    intro t ht
    simp [h t ht]
  simp [ledgerSum, this]

theorem Inv_frame (s s1 : Store) (hu : s1.users = s.users)
    (ht : s1.transactions = s.transactions) (h : Inv s) : Inv s1 := by
  obtain ⟨h1, h2, h3⟩ := h
  refine ⟨?_, ?_, ?_⟩
  · intro t htm
    rw [ht] at htm
    have hg : getUser s1 t.userId = getUser s t.userId := by
      unfold getUser
      rw [hu]
    rw [hg]
    exact h1 t htm
  · intro u hum
    rw [hu] at hum
    rw [ht]
    exact h2 u hum
  · intro u hum
    rw [hu] at hum
    exact h3 u hum

theorem Inv_updateUser (s : Store) (uid : String) (f : User → User)
    (hfu : ∀ v, (f v).uid = v.uid)
    (hfb : ∀ v, (f v).walletBalance = v.walletBalance)
    (hfw : ∀ v, v.wishlist.Nodup → (f v).wishlist.Nodup)
    (h : Inv s) : Inv (updateUser s uid f) := by
  obtain ⟨h1, h2, h3⟩ := h
  refine ⟨?_, ?_, ?_⟩
  · intro t htm
    have hsome := h1 t htm
    by_cases hk : t.userId = uid
    · rw [hk, getUser_updateUser_self s uid f hfu]
      rw [hk] at hsome
      cases hg : getUser s uid with
      | none => rw [hg] at hsome; simp at hsome
      | some u => simp
    · rw [getUser_updateUser_other s uid t.userId f hfu hk]
      exact hsome
  · intro u hum
    obtain ⟨v, hv, hvu⟩ := List.mem_map.mp hum
    by_cases hb : (v.uid == uid) = true
    · rw [if_pos hb] at hvu
      rw [← hvu, hfu, hfb]
      exact h2 v hv
    · rw [if_neg hb] at hvu
      rw [← hvu]
      exact h2 v hv
  · intro u hum
    obtain ⟨v, hv, hvu⟩ := List.mem_map.mp hum
    by_cases hb : (v.uid == uid) = true
    · rw [if_pos hb] at hvu
      rw [← hvu]
      exact hfw v (h3 v hv)
    · rw [if_neg hb] at hvu
      rw [← hvu]
      exact h3 v hv

theorem Inv_chargeLike (s : Store) (uid : String) (d : Int) (t : Transaction)
    (f : User → User) (s1 : Store)
    (hfu : ∀ v, (f v).uid = v.uid)
    (hfb : ∀ v, (f v).walletBalance = v.walletBalance + d)
    (hfw : ∀ v, (f v).wishlist = v.wishlist)
    (hu : s1.users = (updateUser s uid f).users)
    (ht : s1.transactions = s.transactions ++ [t])
    (htu : t.userId = uid) (hta : t.amount = d)
    (hex : (getUser s uid).isSome = true)
    (h : Inv s) : Inv s1 := by
  obtain ⟨h1, h2, h3⟩ := h
  have hgu : ∀ k, getUser s1 k = getUser (updateUser s uid f) k := by
    intro k
    unfold getUser
    rw [hu]
  refine ⟨?_, ?_, ?_⟩
  · intro tr htm
    rw [ht] at htm
    rw [hgu]
    rcases List.mem_append.mp htm with hold | hnew
    · have hsome := h1 tr hold
      by_cases hk : tr.userId = uid
      · rw [hk, getUser_updateUser_self s uid f hfu]
        rw [hk] at hsome
        cases hg : getUser s uid with
        | none => rw [hg] at hsome; simp at hsome
        | some u => simp
      · rw [getUser_updateUser_other s uid tr.userId f hfu hk]
        exact hsome
    · have htr : tr = t := by simpa using hnew
      rw [htr, htu, getUser_updateUser_self s uid f hfu]
      cases hg : getUser s uid with
      | none => rw [hg] at hex; simp at hex
      | some u => simp
  · intro u hum
    rw [hu] at hum
    obtain ⟨v, hv, hvu⟩ := List.mem_map.mp hum
    rw [ht, ledgerSum_append_singleton]
    by_cases hb : (v.uid == uid) = true
    · rw [if_pos hb] at hvu
      have hveq : v.uid = uid := eq_of_beq hb
      have huuid : u.uid = uid := by rw [← hvu, hfu, hveq]
      have hind : (t.userId == u.uid) = true := beq_iff_eq.mpr (by rw [htu, huuid])
      rw [if_pos hind, hta, huuid, ← hveq, h2 v hv, ← hvu, hfb]
    · rw [if_neg hb] at hvu
      have hvne : ¬ (v.uid = uid) := fun hc => hb (beq_iff_eq.mpr hc)
      have hind : (t.userId == u.uid) = false := by
        rw [← hvu]
        exact beq_eq_false_iff_ne.mpr (by rw [htu]; exact fun hc => hvne hc.symm)
      rw [if_neg (by simp [hind]), ← hvu]
      simp only [add_zero]
      exact h2 v hv
  · intro u hum
    rw [hu] at hum
    obtain ⟨v, hv, hvu⟩ := List.mem_map.mp hum
    by_cases hb : (v.uid == uid) = true
    · rw [if_pos hb] at hvu
      rw [← hvu, hfw]
      exact h3 v hv
    · rw [if_neg hb] at hvu
      rw [← hvu]
      exact h3 v hv

theorem Inv_register (s : Store) (uid name email : String)
    (h0 : getUser s uid = none) (h : Inv s) : Inv (register s uid name email) := by
  obtain ⟨h1, h2, h3⟩ := h
  have hnotx : ∀ t ∈ s.transactions, (t.userId == uid) = false := by
    intro t htm
    by_cases hk : t.userId = uid
    · exfalso
      have hsome := h1 t htm
      rw [hk, h0] at hsome
      simp at hsome
    · exact beq_eq_false_iff_ne.mpr hk
  refine ⟨?_, ?_, ?_⟩
  · intro t htm
    have hsome := h1 t htm
    unfold getUser at hsome ⊢
    unfold register
    rw [show ({ s with users := s.users ++ [registeredUser uid name email] } : Store).users
          = s.users ++ [registeredUser uid name email] from rfl,
        List.find?_append]
    cases hg : s.users.find? (fun u => u.uid == t.userId) with
    | none => rw [hg] at hsome; simp at hsome
    | some u => simp [Option.or]
  · intro u hum
    rcases List.mem_append.mp hum with ha | hb
    · exact h2 u ha
    · have hu : u = registeredUser uid name email := by simpa using hb
      rw [hu]
      exact ledgerSum_eq_zero s.transactions uid hnotx
  · intro u hum
    rcases List.mem_append.mp hum with ha | hb
    · exact h3 u ha
    · have hu : u = registeredUser uid name email := by simpa using hb
      rw [hu]
      exact List.nodup_nil

theorem Inv_addFunds (s : Store) (userId : String) (amount now : Int)
    (h : Inv s) : Inv (addFunds s userId amount now).2 := by
  unfold addFunds
  cases hg : getUser s userId with
  | none => exact h
  | some u =>
    exact Inv_chargeLike s userId amount _
      (fun v => { v with walletBalance := v.walletBalance + amount }) _
      (fun v => rfl) (fun v => rfl) (fun v => rfl) rfl rfl rfl rfl
      (by rw [hg]; rfl) ⟨h.1, h.2.1, h.2.2⟩

theorem Inv_upgradeToPro (s : Store) (userId : String) (now : Int)
    (h : Inv s) : Inv (upgradeToPro s userId now).2 := by
  unfold upgradeToPro
  cases hg : getUser s userId with
  | none => exact h
  | some u =>
    dsimp only
    by_cases hlt : u.walletBalance < 999
    · rw [if_pos hlt]
      exact h
    · rw [if_neg hlt]
      exact Inv_chargeLike s userId (-999) _
        (fun v => { v with walletBalance := v.walletBalance - 999, isPro := true,
                           proExpiry := some (now + 365 * 86400000) }) _
        (fun v => rfl) (fun v => sub_eq_add_neg v.walletBalance 999) (fun v => rfl)
        rfl rfl rfl rfl (by rw [hg]; rfl) h

theorem Inv_getProductById (s : Store) (pid : String)
    (h : Inv s) : Inv (getProductById s pid).2 := by
  unfold getProductById
  cases hp : findProduct s pid with
  | none => exact h
  | some p => exact Inv_frame s _ rfl rfl h

theorem Inv_submitProduct (s : Store) (userId title : String) (price now : Int)
    (h : Inv s) : Inv (submitProduct s userId title price now).2 :=
  Inv_frame s _ rfl rfl h

theorem Inv_approveProduct (s : Store) (pid : String)
    (h : Inv s) : Inv (approveProduct s pid).2 := by
  unfold approveProduct
  cases hp : findProduct s pid with
  | none => exact h
  | some p => exact Inv_frame s _ rfl rfl h

theorem Inv_rejectProduct (s : Store) (pid : String)
    (h : Inv s) : Inv (rejectProduct s pid).2 := by
  unfold rejectProduct
  cases hp : findProduct s pid with
  | none => exact h
  | some p => exact Inv_frame s _ rfl rfl h

theorem Inv_createRequest (s : Store) (userId productId : String)
    (paymentProof : Option String) (isWalletPurchase : Bool) (now : Int)
    (h : Inv s) :
    Inv (createRequest s userId productId paymentProof isWalletPurchase now).2 := by
  unfold createRequest getProductById
  cases hp : findProduct s productId with
  | none =>
    cases hg : getUser s userId with
    | none => exact h
    | some u => exact h
  | some p =>
    cases hg : getUser s userId with
    | none => exact Inv_frame s _ rfl rfl h
    | some u =>
      cases isWalletPurchase with
      | false => exact Inv_frame s _ rfl rfl h
      | true =>
        dsimp only
        by_cases hlt : u.walletBalance < p.price
        · rw [if_pos hlt]
          exact Inv_frame s _ rfl rfl h
        · rw [if_neg hlt]
          exact Inv_chargeLike s userId (-p.price) _
            (fun v => { v with walletBalance := v.walletBalance - p.price }) _
            (fun v => rfl) (fun v => sub_eq_add_neg v.walletBalance p.price) (fun v => rfl)
            rfl rfl rfl rfl (by rw [hg]; rfl) h

theorem Inv_toggleWishlist (s : Store) (userId productId : String)
    (h : Inv s) : Inv (toggleWishlist s userId productId).2 := by
  unfold toggleWishlist
  cases hg : getUser s userId with
  | none => exact h
  | some u =>
    have hnd : u.wishlist.Nodup := h.2.2 u (getUser_mem s userId u hg).1
    refine Inv_updateUser s userId _ (fun v => rfl) (fun v => rfl) ?_ h
    intro v _
    by_cases hc : u.wishlist.contains productId = true
    · rw [if_pos hc]
      exact hnd.filter _
    · rw [if_neg hc]
      have hnm : productId ∉ u.wishlist := by
        intro hm
        exact hc (List.elem_eq_true_of_mem hm)
      simp [List.nodup_append, hnd, hnm]

theorem Inv_saveUserFilter (s : Store) (userId label searchTerm category : String)
    (now : Int) (h : Inv s) :
    Inv (saveUserFilter s userId label searchTerm category now).2 := by
  unfold saveUserFilter
  cases hg : getUser s userId with
  | none => exact h
  | some u =>
    exact Inv_updateUser s userId _ (fun v => rfl) (fun v => rfl) (fun v hv => hv) h

theorem Inv_deleteUserFilter (s : Store) (userId fid : String) (h : Inv s) :
    Inv (deleteUserFilter s userId fid).2 := by
  unfold deleteUserFilter
  cases hg : getUser s userId with
  | none => exact h
  | some u =>
    exact Inv_updateUser s userId _ (fun v => rfl) (fun v => rfl) (fun v hv => hv) h

theorem Inv_updateNotificationSettings (s : Store) (userId : String)
    (n : NotificationSettings) (h : Inv s) :
    Inv (updateNotificationSettings s userId n) :=
  Inv_updateUser s userId _ (fun v => rfl) (fun v => rfl) (fun v hv => hv) h

theorem Inv_initStore : Inv initStore := by
  refine ⟨?_, ?_, ?_⟩ <;> intro x hx <;> exact absurd hx (List.not_mem_nil x)

theorem reachable_inv (s : Store) (h : Reachable s) : Inv s := by
  induction h with
  | init => exact Inv_initStore
  | step hr hs ih =>
    cases hs with
    | register uid name email h0 => exact Inv_register _ uid name email h0 ih
    | addFunds userId amount now => exact Inv_addFunds _ userId amount now ih
    | upgradeToPro userId now => exact Inv_upgradeToPro _ userId now ih
    | getProductById pid => exact Inv_getProductById _ pid ih
    | submitProduct userId title price now => exact Inv_submitProduct _ userId title price now ih
    | createRequest userId productId paymentProof isWalletPurchase now =>
      exact Inv_createRequest _ userId productId paymentProof isWalletPurchase now ih
    | approveProduct pid => exact Inv_approveProduct _ pid ih
    | rejectProduct pid => exact Inv_rejectProduct _ pid ih
    | toggleWishlist userId pid => exact Inv_toggleWishlist _ userId pid ih
    | saveUserFilter userId label searchTerm category now =>
      exact Inv_saveUserFilter _ userId label searchTerm category now ih
    | deleteUserFilter userId fid => exact Inv_deleteUserFilter _ userId fid ih
    | updateNotificationSettings userId n => exact Inv_updateNotificationSettings _ userId n ih

theorem getUser_eq_of_users (s1 s2 : Store) (h : s1.users = s2.users) (k : String) :
    getUser s1 k = getUser s2 k := by
  unfold getUser
  rw [h]

theorem findProduct_eq_of_products (s1 s2 : Store) (h : s1.products = s2.products)
    (k : String) : findProduct s1 k = findProduct s2 k := by
  unfold findProduct
  rw [h]

theorem addFunds_ok (s : Store) (uid : String) (amount now : Int) (u : User)
    (hg : getUser s uid = some u) :
    (addFunds s uid amount now).1 = Except.ok (u.walletBalance + amount) ∧
    (addFunds s uid amount now).2.transactions = s.transactions ++
      [⟨"doc" ++ toString s.nextId, uid, amount, TxType.deposit,
        "Wallet Deposit via Secure Gateway", now⟩] ∧
    getUser (addFunds s uid amount now).2 uid
      = some { u with walletBalance := u.walletBalance + amount } ∧
    (addFunds s uid amount now).2.products = s.products ∧
    (addFunds s uid amount now).2.requests = s.requests := by
  have hg' : s.users.find? (fun v => v.uid == uid) = some u := hg
  unfold addFunds
  rw [hg]
  dsimp only
  unfold getUser updateUser freshId
  dsimp only
  rw [find?_map_update_self User.uid
        (fun v => { v with walletBalance := v.walletBalance + amount }) (fun v => rfl)
        uid s.users,
      hg']
  exact ⟨rfl, rfl, rfl, rfl, rfl⟩

theorem addFunds_missing (s : Store) (uid : String) (amount now : Int)
    (hg : getUser s uid = none) :
    addFunds s uid amount now = (Except.error ApiError.notFound, s) := by
  unfold addFunds
  rw [hg]

theorem upgradeToPro_ok (s : Store) (uid : String) (now : Int) (u : User)
    (hg : getUser s uid = some u) (hge : ¬ u.walletBalance < 999) :
    (upgradeToPro s uid now).1 = Except.ok (some
      { u with walletBalance := u.walletBalance - 999, isPro := true,
               proExpiry := some (now + 365 * 86400000) }) ∧
    (upgradeToPro s uid now).2.transactions = s.transactions ++
      [⟨"doc" ++ toString s.nextId, uid, -999, TxType.subscription,
        "Elite Pro Subscription (1 Year)", now⟩] ∧
    getUser (upgradeToPro s uid now).2 uid = some
      { u with walletBalance := u.walletBalance - 999, isPro := true,
               proExpiry := some (now + 365 * 86400000) } ∧
    (upgradeToPro s uid now).2.products = s.products ∧
    (upgradeToPro s uid now).2.requests = s.requests := by
  have hg' : s.users.find? (fun v => v.uid == uid) = some u := hg
  unfold upgradeToPro
  rw [hg]
  dsimp only
  rw [if_neg hge]
  unfold getUser updateUser freshId
  dsimp only
  rw [find?_map_update_self User.uid
        (fun v => { v with walletBalance := v.walletBalance - 999, isPro := true,
                           proExpiry := some (now + 365 * 86400000) }) (fun v => rfl)
        uid s.users,
      hg']
  exact ⟨rfl, rfl, rfl, rfl, rfl⟩

theorem upgradeToPro_poor (s : Store) (uid : String) (now : Int) (u : User)
    (hg : getUser s uid = some u) (hlt : u.walletBalance < 999) :
    upgradeToPro s uid now = (Except.error ApiError.insufficientProBalance, s) := by
  unfold upgradeToPro
  rw [hg]
  dsimp only
  rw [if_pos hlt]

theorem createRequest_wallet_ok (s : Store) (uid pid : String) (pf : Option String)
    (now : Int) (u : User) (p : Product)
    (hg : getUser s uid = some u) (hp : findProduct s pid = some p)
    (hbal : ¬ u.walletBalance < p.price) :
    (createRequest s uid pid pf true now).1 = Except.ok
      ⟨"doc" ++ toString (s.nextId + 1), uid, pid, pf.getD "",
        RequestStatus.approved, some now, now, true⟩ ∧
    (createRequest s uid pid pf true now).2.transactions = s.transactions ++
      [⟨"doc" ++ toString s.nextId, uid, -p.price, TxType.purchase,
        "Purchased " ++ p.title, now⟩] ∧
    (createRequest s uid pid pf true now).2.requests = s.requests ++
      [⟨"doc" ++ toString (s.nextId + 1), uid, pid, pf.getD "",
        RequestStatus.approved, some now, now, true⟩] ∧
    getUser (createRequest s uid pid pf true now).2 uid
      = some { u with walletBalance := u.walletBalance - p.price } ∧
    findProduct (createRequest s uid pid pf true now).2 pid
      = some { p with salesCount := p.salesCount + 1, viewCount := p.viewCount + 1 } := by
  have hg' : s.users.find? (fun v => v.uid == uid) = some u := hg
  have hp' : s.products.find? (fun q => q.id == pid) = some p := hp
  unfold createRequest getProductById
  rw [hp]
  dsimp only
  rw [hg]
  dsimp only
  rw [if_pos (rfl : (true : Bool) = true), if_neg hbal]
  unfold getUser findProduct updateUser updateProduct freshId
  dsimp only
  rw [find?_map_update_self User.uid
        (fun v => { v with walletBalance := v.walletBalance - p.price }) (fun v => rfl)
        uid s.users,
      hg',
      find?_map_update_self Product.id
        (fun q => { q with salesCount := q.salesCount + 1 }) (fun q => rfl) pid
        (s.products.map (fun q =>
          if (q.id == pid) = true then { q with viewCount := q.viewCount + 1 } else q)),
      find?_map_update_self Product.id
        (fun q => { q with viewCount := q.viewCount + 1 }) (fun q => rfl) pid s.products,
      hp']
  exact ⟨rfl, rfl, rfl, rfl, rfl⟩

theorem Step_transactions (s s1 : Store) (h : Step s s1) :
    s1.transactions = s.transactions ∨ ∃ t, s1.transactions = s.transactions ++ [t] := by
  cases h with
  | register uid name email h0 => exact Or.inl rfl
  | addFunds userId amount now =>
    unfold addFunds
    cases hg : getUser s userId with
    | none => exact Or.inl rfl
    | some u => exact Or.inr ⟨_, rfl⟩
  | upgradeToPro userId now =>
    unfold upgradeToPro
    cases hg : getUser s userId with
    | none => exact Or.inl rfl
    | some u =>
      dsimp only
      by_cases hlt : u.walletBalance < 999
      · rw [if_pos hlt]
        exact Or.inl rfl
      · rw [if_neg hlt]
        exact Or.inr ⟨_, rfl⟩
  | getProductById pid =>
    unfold getProductById
    cases hp : findProduct s pid with
    | none => exact Or.inl rfl
    | some p => exact Or.inl rfl
  | submitProduct userId title price now => exact Or.inl rfl
  | createRequest userId productId paymentProof isWalletPurchase now =>
    unfold createRequest getProductById
    cases hp : findProduct s productId with
    | none =>
      cases hg : getUser s userId with
      | none => exact Or.inl rfl
      | some u => exact Or.inl rfl
    | some p =>
      cases hg : getUser s userId with
      | none => exact Or.inl rfl
      | some u =>
        cases isWalletPurchase with
        | false => exact Or.inl rfl
        | true =>
          dsimp only
          by_cases hlt : u.walletBalance < p.price
          · rw [if_pos hlt]
            exact Or.inl rfl
          · rw [if_neg hlt]
            exact Or.inr ⟨_, rfl⟩
  | approveProduct pid =>
    unfold approveProduct
    cases hp : findProduct s pid with
    | none => exact Or.inl rfl
    | some p => exact Or.inl rfl
  | rejectProduct pid =>
    unfold rejectProduct
    cases hp : findProduct s pid with
    | none => exact Or.inl rfl
    | some p => exact Or.inl rfl
  | toggleWishlist userId pid =>
    unfold toggleWishlist
    cases hg : getUser s userId with
    | none => exact Or.inl rfl
    | some u => exact Or.inl rfl
  | saveUserFilter userId label searchTerm category now =>
    unfold saveUserFilter
    cases hg : getUser s userId with
    | none => exact Or.inl rfl
    | some u => exact Or.inl rfl
  | deleteUserFilter userId fid =>
    unfold deleteUserFilter
    cases hg : getUser s userId with
    | none => exact Or.inl rfl
    | some u => exact Or.inl rfl
  | updateNotificationSettings userId n => exact Or.inl rfl

theorem toggleWishlist_spec (s : Store) (uid pid : String) (u : User)
    (hg : getUser s uid = some u) :
    (toggleWishlist s uid pid).1 =
      (if u.wishlist.contains pid then u.wishlist.filter (fun x => x != pid)
       else u.wishlist ++ [pid]) ∧
    getUser (toggleWishlist s uid pid).2 uid = some { u with wishlist :=
      (if u.wishlist.contains pid then u.wishlist.filter (fun x => x != pid)
       else u.wishlist ++ [pid]) } := by
  have hg' : s.users.find? (fun v => v.uid == uid) = some u := hg
  unfold toggleWishlist
  rw [hg]
  dsimp only
  unfold getUser updateUser
  dsimp only
  rw [find?_map_update_self User.uid
        (fun v => { v with wishlist :=
          if u.wishlist.contains pid then u.wishlist.filter (fun id => id != pid)
          else u.wishlist ++ [pid] })
        (fun v => rfl) uid s.users,
      hg']
  exact ⟨rfl, rfl⟩

theorem filter_bne_of_not_mem (l : List String) (a : String) (h : a ∉ l) :
    l.filter (fun x => x != a) = l :=
  List.filter_eq_self.mpr (fun x hx => bne_iff_ne.mpr (fun hc => h (hc ▸ hx)))

theorem perm_filter_append (l : List String) (a : String) (hnd : l.Nodup) (hm : a ∈ l) :
    List.Perm (l.filter (fun x => x != a) ++ [a]) l := by
  have h2 : l.erase a = l.filter (fun x => x != a) := hnd.erase_eq_filter a
  have h1 : List.Perm (l.filter (fun x => x != a) ++ [a]) (a :: l.filter (fun x => x != a)) :=
    List.perm_append_singleton a _
  have h3 : List.Perm l (a :: l.erase a) := List.perm_cons_erase hm
  rw [h2] at h3
  exact h1.trans h3.symm

theorem not_mem_filter_bne (l : List String) (a : String) :
    a ∉ l.filter (fun x => x != a) := by
  intro hm
  have h := (List.mem_filter.mp hm).2
  rw [bne_self_eq_false] at h
  exact Bool.false_ne_true h

theorem approveProduct_spec (s : Store) (pid : String) (p : Product)
    (hp : findProduct s pid = some p) :
    (approveProduct s pid).1 = Except.ok true ∧
    findProduct (approveProduct s pid).2 pid = some { p with approved := true } := by
  have hp' : s.products.find? (fun q => q.id == pid) = some p := hp
  unfold approveProduct
  rw [hp]
  dsimp only
  unfold findProduct updateProduct
  dsimp only
  rw [find?_map_update_self Product.id (fun q => { q with approved := true })
        (fun q => rfl) pid s.products, hp']
  exact ⟨rfl, rfl⟩

theorem rejectProduct_spec (s : Store) (pid : String) (p : Product)
    (hp : findProduct s pid = some p) :
    (rejectProduct s pid).1 = Except.ok true ∧
    findProduct (rejectProduct s pid).2 pid
      = some { p with approved := false, rejected := true } := by
  have hp' : s.products.find? (fun q => q.id == pid) = some p := hp
  unfold rejectProduct
  rw [hp]
  dsimp only
  unfold findProduct updateProduct
  dsimp only
  rw [find?_map_update_self Product.id (fun q => { q with approved := false, rejected := true })
        (fun q => rfl) pid s.products, hp']
  exact ⟨rfl, rfl⟩

/-- C1: when the buyer's wallet balance is strictly below the product's price,
a wallet purchase fails with the insufficient-balance error, and the store is
unchanged in the claimed respects: no request is created, no transaction is
appended, the buyer's stored document (hence balance) is untouched, and the
product's `salesCount` is untouched. -/
theorem walletPurchase_insufficientFunds (s : Store) (uid pid : String)
    (pf : Option String) (now : Int) (u : User) (p : Product)
    (hg : getUser s uid = some u) (hp : findProduct s pid = some p)
    (hlt : u.walletBalance < p.price) :
    (createRequest s uid pid pf true now).1 = Except.error ApiError.insufficientBalance ∧
    (createRequest s uid pid pf true now).2.requests = s.requests ∧
    (createRequest s uid pid pf true now).2.transactions = s.transactions ∧
    getUser (createRequest s uid pid pf true now).2 uid = some u ∧
    (findProduct (createRequest s uid pid pf true now).2 pid).map Product.salesCount
      = some p.salesCount := by
  have hg' : s.users.find? (fun v => v.uid == uid) = some u := hg
  have hp' : s.products.find? (fun q => q.id == pid) = some p := hp
  unfold createRequest getProductById
  rw [hp]
  dsimp only
  rw [hg]
  dsimp only
  rw [if_pos (rfl : (true : Bool) = true), if_pos hlt]
  unfold getUser findProduct updateProduct
  dsimp only
  rw [find?_map_update_self Product.id (fun q => { q with viewCount := q.viewCount + 1 })
        (fun q => rfl) pid s.products, hp', hg']
  exact ⟨rfl, rfl, rfl, rfl, rfl⟩

theorem walletPurchase_insufficientFunds_witness :
    (createRequest c1Store "u1" "p1" none true 3).1
      = Except.error ApiError.insufficientBalance ∧
    (createRequest c1Store "u1" "p1" none true 3).2.requests = c1Store.requests ∧
    (createRequest c1Store "u1" "p1" none true 3).2.transactions = c1Store.transactions ∧
    getUser (createRequest c1Store "u1" "p1" none true 3).2 "u1" = some c1User ∧
    (findProduct (createRequest c1Store "u1" "p1" none true 3).2 "p1").map Product.salesCount
      = some c1Product.salesCount :=
  walletPurchase_insufficientFunds c1Store "u1" "p1" none 3 c1User c1Product rfl rfl
    (by decide)

/-- C2: in every store reachable by mock-API calls every stored account's
transactions sum to its balance (accounts are registered with balance zero);
every single call appends at most one transaction; and across any call from a
reachable store, an account's balance delta equals its ledger-sum delta, so
each balance change comes with exactly one matching transaction record. -/
theorem ledger_balance_invariant :
    (∀ s, Reachable s → ∀ u ∈ s.users, ledgerSum s.transactions u.uid = u.walletBalance) ∧
    (∀ s s1, Step s s1 →
      s1.transactions = s.transactions ∨ ∃ t, s1.transactions = s.transactions ++ [t]) ∧
    (∀ s s1, Reachable s → Step s s1 → ∀ uid u u1,
      getUser s uid = some u → getUser s1 uid = some u1 →
      u1.walletBalance - u.walletBalance
        = ledgerSum s1.transactions uid - ledgerSum s.transactions uid) := by
  refine ⟨?_, ?_, ?_⟩
  · intro s hr u hu
    exact (reachable_inv s hr).2.1 u hu
  · intro s s1 hstep
    exact Step_transactions s s1 hstep
  · intro s s1 hr hstep uid u u1 hgu hgu1
    have hm := getUser_mem s uid u hgu
    have hm1 := getUser_mem s1 uid u1 hgu1
    have h0 := (reachable_inv s hr).2.1 u hm.1
    have h1 := (reachable_inv s1 (Reachable.step hr hstep)).2.1 u1 hm1.1
    rw [hm.2] at h0
    rw [hm1.2] at h1
    omega

theorem ledger_balance_invariant_witness :
    Reachable c2WitStore ∧ c2WitUser ∈ c2WitStore.users ∧
    ledgerSum c2WitStore.transactions c2WitUser.uid = c2WitUser.walletBalance := by
  have hreach : Reachable c2WitStore :=
    Reachable.step
      (Reachable.step Reachable.init (Step.register initStore "u1" "Ada" "ada@x" rfl))
      (Step.addFunds (register initStore "u1" "Ada" "ada@x") "u1" 500 7)
  have hmem : c2WitUser ∈ c2WitStore.users := by decide
  exact ⟨hreach, hmem, ledger_balance_invariant.1 c2WitStore hreach c2WitUser hmem⟩

/-- C3 counterexample: `c3Store` already holds an active (approved) request
for (u1, p1), yet a second wallet purchase for the same pair does not fail:
it succeeds, appends another transaction and another request, charges the
buyer again, and bumps `salesCount` again.  The code has no duplicate check
and no `DuplicateAcquisition` error at all. -/
theorem duplicate_walletPurchase_cex :
    (∃ r ∈ c3Store.requests, r.userId = "u1" ∧ r.productId = "p1" ∧
      (r.status = RequestStatus.pending ∨ r.status = RequestStatus.approved)) ∧
    resultOk (createRequest c3Store "u1" "p1" none true 5).1 = true ∧
    (createRequest c3Store "u1" "p1" none true 5).2.transactions.length
      = c3Store.transactions.length + 1 ∧
    (createRequest c3Store "u1" "p1" none true 5).2.requests.length
      = c3Store.requests.length + 1 ∧
    getUser (createRequest c3Store "u1" "p1" none true 5).2 "u1"
      = some { c3User with walletBalance := 1500 } ∧
    (findProduct (createRequest c3Store "u1" "p1" none true 5).2 "p1").map Product.salesCount
      = some 1 := by decide

/-- C3 amended: `createRequest` performs no duplicate check.  Even while an
active (pending or approved) request for the same (account, product) pair is
stored, a funded wallet purchase succeeds and produces its full effect:
a second Approved request is appended, a purchase transaction is appended,
the balance is debited by the price, and `salesCount` is bumped again. -/
theorem duplicate_walletPurchase_amended (s : Store) (uid pid : String)
    (pf : Option String) (now : Int) (u : User) (p : Product) (r : Request)
    (hr : r ∈ s.requests) (hru : r.userId = uid) (hrp : r.productId = pid)
    (hractive : r.status = RequestStatus.pending ∨ r.status = RequestStatus.approved)
    (hg : getUser s uid = some u) (hp : findProduct s pid = some p)
    (hbal : ¬ u.walletBalance < p.price) :
    (createRequest s uid pid pf true now).1 = Except.ok
      ⟨"doc" ++ toString (s.nextId + 1), uid, pid, pf.getD "",
        RequestStatus.approved, some now, now, true⟩ ∧
    (createRequest s uid pid pf true now).2.transactions = s.transactions ++
      [⟨"doc" ++ toString s.nextId, uid, -p.price, TxType.purchase,
        "Purchased " ++ p.title, now⟩] ∧
    (createRequest s uid pid pf true now).2.requests = s.requests ++
      [⟨"doc" ++ toString (s.nextId + 1), uid, pid, pf.getD "",
        RequestStatus.approved, some now, now, true⟩] ∧
    getUser (createRequest s uid pid pf true now).2 uid
      = some { u with walletBalance := u.walletBalance - p.price } ∧
    findProduct (createRequest s uid pid pf true now).2 pid
      = some { p with salesCount := p.salesCount + 1, viewCount := p.viewCount + 1 } :=
  createRequest_wallet_ok s uid pid pf now u p hg hp hbal

theorem duplicate_walletPurchase_amended_witness :
    resultOk (createRequest c3Store "u1" "p1" none true 5).1 = true ∧
    getUser (createRequest c3Store "u1" "p1" none true 5).2 "u1"
      = some { c3User with walletBalance := c3User.walletBalance - c3Product.price } := by
  have h := duplicate_walletPurchase_amended c3Store "u1" "p1" none 5 c3User c3Product
    c3Request (by decide) rfl rfl (Or.inr rfl) rfl rfl (by decide)
  refine ⟨?_, h.2.2.2.1⟩
  rw [h.1]
  rfl

/-- C4 counterexample: approving `p1` and then rejecting it does not fail —
the second call also returns `Ok true` and flips the product to
`approved = false, rejected = true`; the code has no `InvalidStateTransition`
error and no moderation-state precondition at all. -/
theorem approve_then_reject_cex :
    (approveProduct c4Store "p1").1 = Except.ok true ∧
    (findProduct (approveProduct c4Store "p1").2 "p1").map Product.approved = some true ∧
    (rejectProduct (approveProduct c4Store "p1").2 "p1").1 = Except.ok true ∧
    (findProduct (rejectProduct (approveProduct c4Store "p1").2 "p1").2 "p1").map
      Product.approved = some false ∧
    (findProduct (rejectProduct (approveProduct c4Store "p1").2 "p1").2 "p1").map
      Product.rejected = some true := by decide

/-- C4 amended: moderation transitions are unconditional.  On any existing
product, `approveProduct` returns `Ok true` and sets `approved := true`, and a
following `rejectProduct` also returns `Ok true` and sets `approved := false`
and `rejected := true`, regardless of the prior state. -/
theorem moderation_unconditional (s : Store) (pid : String) (p : Product)
    (hp : findProduct s pid = some p) :
    (approveProduct s pid).1 = Except.ok true ∧
    (findProduct (approveProduct s pid).2 pid).map Product.approved = some true ∧
    (rejectProduct (approveProduct s pid).2 pid).1 = Except.ok true ∧
    (findProduct (rejectProduct (approveProduct s pid).2 pid).2 pid).map Product.approved
      = some false ∧
    (findProduct (rejectProduct (approveProduct s pid).2 pid).2 pid).map Product.rejected
      = some true := by
  obtain ⟨ha1, ha2⟩ := approveProduct_spec s pid p hp
  obtain ⟨hr1, hr2⟩ := rejectProduct_spec (approveProduct s pid).2 pid
    { p with approved := true } ha2
  refine ⟨ha1, ?_, hr1, ?_, ?_⟩
  · rw [ha2]
    rfl
  · rw [hr2]
    rfl
  · rw [hr2]
    rfl

theorem moderation_unconditional_witness :
    (approveProduct c4Store "p1").1 = Except.ok true ∧
    (findProduct (approveProduct c4Store "p1").2 "p1").map Product.approved = some true ∧
    (rejectProduct (approveProduct c4Store "p1").2 "p1").1 = Except.ok true ∧
    (findProduct (rejectProduct (approveProduct c4Store "p1").2 "p1").2 "p1").map
      Product.approved = some false ∧
    (findProduct (rejectProduct (approveProduct c4Store "p1").2 "p1").2 "p1").map
      Product.rejected = some true :=
  moderation_unconditional c4Store "p1" c4Product rfl

/-- C5: for an existing account with balance at least the hard-coded fee 999,
`upgradeToPro` succeeds: the returned user and the stored user both carry
balance reduced by 999, `isPro = true` and `proExpiry = now + 365 days`, and
exactly one subscription transaction of -999 is appended.  Below the fee the
call fails with the Pro insufficient-balance error and the store is returned
unchanged. -/
theorem upgradeToPro_spec (s : Store) (uid : String) (now : Int) (u : User)
    (hg : getUser s uid = some u) :
    (¬ u.walletBalance < 999 →
      (upgradeToPro s uid now).1 = Except.ok (some
        { u with walletBalance := u.walletBalance - 999, isPro := true,
                 proExpiry := some (now + 365 * 86400000) }) ∧
      (upgradeToPro s uid now).2.transactions = s.transactions ++
        [⟨"doc" ++ toString s.nextId, uid, -999, TxType.subscription,
          "Elite Pro Subscription (1 Year)", now⟩] ∧
      getUser (upgradeToPro s uid now).2 uid = some
        { u with walletBalance := u.walletBalance - 999, isPro := true,
                 proExpiry := some (now + 365 * 86400000) }) ∧
    (u.walletBalance < 999 →
      upgradeToPro s uid now = (Except.error ApiError.insufficientProBalance, s)) := by
  constructor
  · intro hge
    obtain ⟨h1, h2, h3, h4, h5⟩ := upgradeToPro_ok s uid now u hg hge
    exact ⟨h1, h2, h3⟩
  · intro hlt
    exact upgradeToPro_poor s uid now u hg hlt

theorem upgradeToPro_spec_witness :
    (upgradeToPro c5Store "u1" 11).1 = Except.ok (some
      { c5Rich with walletBalance := c5Rich.walletBalance - 999, isPro := true,
                    proExpiry := some (11 + 365 * 86400000) }) ∧
    (upgradeToPro c5Store "u1" 11).2.transactions = c5Store.transactions ++
      [⟨"doc" ++ toString c5Store.nextId, "u1", -999, TxType.subscription,
        "Elite Pro Subscription (1 Year)", 11⟩] ∧
    getUser (upgradeToPro c5Store "u1" 11).2 "u1" = some
      { c5Rich with walletBalance := c5Rich.walletBalance - 999, isPro := true,
                    proExpiry := some (11 + 365 * 86400000) } ∧
    upgradeToPro c5Store "u2" 11 = (Except.error ApiError.insufficientProBalance, c5Store) := by
  have hrich := upgradeToPro_spec c5Store "u1" 11 c5Rich rfl
  have hpoor := upgradeToPro_spec c5Store "u2" 11 c5Poor rfl
  obtain ⟨h1, h2, h3⟩ := hrich.1 (by decide)
  exact ⟨h1, h2, h3, hpoor.2 (by decide)⟩

/-- C6 counterexample: `c6Store` holds a product that was never approved
(`approved = false`), yet a funded wallet purchase of it succeeds: the buyer
is charged, a purchase transaction is appended, `salesCount` is bumped and an
Approved request is stored.  `createRequest` never looks at the moderation
state. -/
theorem unapproved_walletPurchase_cex :
    (findProduct c6Store "p1").map Product.approved = some false ∧
    resultOk (createRequest c6Store "u1" "p1" none true 5).1 = true ∧
    (createRequest c6Store "u1" "p1" none true 5).2.transactions.length = 1 ∧
    getUser (createRequest c6Store "u1" "p1" none true 5).2 "u1"
      = some { c6User with walletBalance := 1500 } ∧
    (findProduct (createRequest c6Store "u1" "p1" none true 5).2 "p1").map Product.salesCount
      = some 1 ∧
    (createRequest c6Store "u1" "p1" none true 5).2.requests.length = 1 := by decide

/-- C6 amended: `createRequest` does not verify the product's moderation
state.  A wallet purchase of an existing product proceeds whenever the buyer
exists and holds at least the price — even when the product is not approved —
charging the account, appending a purchase transaction, bumping `salesCount`,
and storing an Approved request. -/
theorem walletPurchase_ignores_moderation (s : Store) (uid pid : String)
    (pf : Option String) (now : Int) (u : User) (p : Product)
    (hg : getUser s uid = some u) (hp : findProduct s pid = some p)
    (hnap : p.approved = false) (hbal : ¬ u.walletBalance < p.price) :
    (createRequest s uid pid pf true now).1 = Except.ok
      ⟨"doc" ++ toString (s.nextId + 1), uid, pid, pf.getD "",
        RequestStatus.approved, some now, now, true⟩ ∧
    (createRequest s uid pid pf true now).2.transactions = s.transactions ++
      [⟨"doc" ++ toString s.nextId, uid, -p.price, TxType.purchase,
        "Purchased " ++ p.title, now⟩] ∧
    (createRequest s uid pid pf true now).2.requests = s.requests ++
      [⟨"doc" ++ toString (s.nextId + 1), uid, pid, pf.getD "",
        RequestStatus.approved, some now, now, true⟩] ∧
    getUser (createRequest s uid pid pf true now).2 uid
      = some { u with walletBalance := u.walletBalance - p.price } ∧
    findProduct (createRequest s uid pid pf true now).2 pid
      = some { p with salesCount := p.salesCount + 1, viewCount := p.viewCount + 1 } :=
  createRequest_wallet_ok s uid pid pf now u p hg hp hbal

theorem walletPurchase_ignores_moderation_witness :
    resultOk (createRequest c6Store "u1" "p1" none true 5).1 = true ∧
    getUser (createRequest c6Store "u1" "p1" none true 5).2 "u1"
      = some { c6User with walletBalance := c6User.walletBalance - c6Product.price } := by
  have h := walletPurchase_ignores_moderation c6Store "u1" "p1" none 5 c6User c6Product
    rfl rfl rfl (by decide)
  refine ⟨?_, h.2.2.2.1⟩
  rw [h.1]
  rfl

/-- C7 counterexample: a deposit of -40 on an account holding 100 is not
rejected: `addFunds` performs no amount validation, so it returns `Ok 60`,
stores balance 60 and appends a deposit transaction of -40. -/
theorem nonpositive_deposit_cex :
    (addFunds c7Store "u1" (-40) 5).1 = Except.ok 60 ∧
    (addFunds c7Store "u1" (-40) 5).2.transactions.length = 1 ∧
    getUser (addFunds c7Store "u1" (-40) 5).2 "u1"
      = some { c7User with walletBalance := 60 } := by decide

/-- C7 amended: `addFunds` never validates its amount.  For an existing
account and ANY amount (positive, zero or negative) it adds the amount to the
balance, appends exactly one deposit transaction carrying that amount, and
returns the new balance; for a missing account it fails with the Firestore
not-found error and changes nothing. -/
theorem addFunds_no_validation (s : Store) (uid : String) (amount now : Int) (u : User)
    (hg : getUser s uid = some u) :
    ((addFunds s uid amount now).1 = Except.ok (u.walletBalance + amount) ∧
     (addFunds s uid amount now).2.transactions = s.transactions ++
       [⟨"doc" ++ toString s.nextId, uid, amount, TxType.deposit,
         "Wallet Deposit via Secure Gateway", now⟩] ∧
     getUser (addFunds s uid amount now).2 uid
       = some { u with walletBalance := u.walletBalance + amount }) ∧
    (∀ s1 : Store, ∀ uid1 : String, getUser s1 uid1 = none →
      addFunds s1 uid1 amount now = (Except.error ApiError.notFound, s1)) := by
  constructor
  · obtain ⟨h1, h2, h3, h4, h5⟩ := addFunds_ok s uid amount now u hg
    exact ⟨h1, h2, h3⟩
  · intro s1 uid1 hnone
    exact addFunds_missing s1 uid1 amount now hnone

theorem addFunds_no_validation_witness :
    (addFunds c7Store "u1" (-40) 5).1 = Except.ok (c7User.walletBalance + (-40)) ∧
    (addFunds c7Store "u1" (-40) 5).2.transactions = c7Store.transactions ++
      [⟨"doc" ++ toString c7Store.nextId, "u1", -40, TxType.deposit,
        "Wallet Deposit via Secure Gateway", 5⟩] ∧
    getUser (addFunds c7Store "u1" (-40) 5).2 "u1"
      = some { c7User with walletBalance := c7User.walletBalance + (-40) } ∧
    addFunds c7Store "zz" (-40) 5 = (Except.error ApiError.notFound, c7Store) := by
  have h := addFunds_no_validation c7Store "u1" (-40) 5 c7User rfl
  exact ⟨h.1.1, h.1.2.1, h.1.2.2, h.2 c7Store "zz" rfl⟩

/-- C8: reading a product mutates it.  `getProductById` on an existing
product returns the data read before the write but bumps the stored
`viewCount` by one; and since `createRequest` fetches the product through
`getProductById`, every wallet-purchase attempt — succeeding or failing with
insufficient balance — leaves `viewCount` bumped by one. -/
theorem getProductById_bumps_viewCount (s : Store) (pid : String) (p : Product)
    (hp : findProduct s pid = some p) (uid : String) (u : User) (pf : Option String)
    (now : Int) (hg : getUser s uid = some u) :
    (getProductById s pid).1 = some p ∧
    (findProduct (getProductById s pid).2 pid).map Product.viewCount
      = some (p.viewCount + 1) ∧
    (findProduct (createRequest s uid pid pf true now).2 pid).map Product.viewCount
      = some (p.viewCount + 1) := by
  have hp' : s.products.find? (fun q => q.id == pid) = some p := hp
  have hg' : s.users.find? (fun v => v.uid == uid) = some u := hg
  refine ⟨?_, ?_, ?_⟩
  · unfold getProductById
    rw [hp]
  · unfold getProductById
    rw [hp]
    dsimp only
    unfold findProduct updateProduct
    dsimp only
    rw [find?_map_update_self Product.id (fun q => { q with viewCount := q.viewCount + 1 })
          (fun q => rfl) pid s.products, hp']
    rfl
  · by_cases hlt : u.walletBalance < p.price
    · unfold createRequest getProductById
      rw [hp]
      dsimp only
      rw [hg]
      dsimp only
      rw [if_pos (rfl : (true : Bool) = true), if_pos hlt]
      unfold findProduct updateProduct
      dsimp only
      rw [find?_map_update_self Product.id (fun q => { q with viewCount := q.viewCount + 1 })
            (fun q => rfl) pid s.products, hp']
      rfl
    · have h := (createRequest_wallet_ok s uid pid pf now u p hg hp hlt).2.2.2.2
      rw [h]
      rfl

theorem getProductById_bumps_viewCount_witness :
    (getProductById c1Store "p1").1 = some c1Product ∧
    (findProduct (getProductById c1Store "p1").2 "p1").map Product.viewCount
      = some (c1Product.viewCount + 1) ∧
    (findProduct (createRequest c1Store "u1" "p1" none true 3).2 "p1").map Product.viewCount
      = some (c1Product.viewCount + 1) :=
  getProductById_bumps_viewCount c1Store "p1" c1Product rfl "u1" c1User none 3 rfl

/-- C9 counterexample: toggling p1 twice on the wishlist ["p1", "p2"] does
not restore the original list.  The first toggle filters p1 out, the second
appends it at the END, yielding ["p2", "p1"] — the same set but not "exactly
its original value". -/
theorem wishlist_double_toggle_cex :
    getUser c9Store "u1" = some c9User ∧
    c9User.wishlist = ["p1", "p2"] ∧
    (toggleWishlist (toggleWishlist c9Store "u1" "p1").2 "u1" "p1").1 = ["p2", "p1"] ∧
    getUser (toggleWishlist (toggleWishlist c9Store "u1" "p1").2 "u1" "p1").2 "u1"
      = some { c9User with wishlist := ["p2", "p1"] } ∧
    (["p2", "p1"] : List String) ≠ c9User.wishlist := by decide

/-- C9 amended: double toggling restores the wishlist only up to order.  For
an account in any reachable store (whose wishlist is therefore
duplicate-free), toggling the same id twice returns a permutation of the
original wishlist; it restores the list exactly (and the whole stored user)
when the id was absent; one application appends the id when absent and
removes every occurrence when present. -/
theorem wishlist_double_toggle (s : Store) (uid pid : String) (u : User)
    (hreach : Reachable s) (hg : getUser s uid = some u) :
    List.Perm (toggleWishlist (toggleWishlist s uid pid).2 uid pid).1 u.wishlist ∧
    (pid ∉ u.wishlist →
      (toggleWishlist (toggleWishlist s uid pid).2 uid pid).1 = u.wishlist ∧
      getUser (toggleWishlist (toggleWishlist s uid pid).2 uid pid).2 uid = some u) ∧
    (pid ∉ u.wishlist → (toggleWishlist s uid pid).1 = u.wishlist ++ [pid]) ∧
    (pid ∈ u.wishlist → pid ∉ (toggleWishlist s uid pid).1) := by
  have hnd : u.wishlist.Nodup := (reachable_inv s hreach).2.2 u (getUser_mem s uid u hg).1
  obtain ⟨ht1, ht2⟩ := toggleWishlist_spec s uid pid u hg
  by_cases hmem : pid ∈ u.wishlist
  · have hc : u.wishlist.contains pid = true := List.elem_eq_true_of_mem hmem
    rw [if_pos hc] at ht1 ht2
    obtain ⟨hs1, hs2⟩ := toggleWishlist_spec (toggleWishlist s uid pid).2 uid pid _ ht2
    dsimp only at hs1 hs2
    have hnm1 : pid ∉ u.wishlist.filter (fun x => x != pid) := not_mem_filter_bne _ _
    have hcf : (u.wishlist.filter (fun x => x != pid)).contains pid = false := by
      rw [← Bool.not_eq_true]
      intro hcc
      exact hnm1 (List.mem_of_elem_eq_true hcc)
    have hcfn : ¬ ((u.wishlist.filter (fun x => x != pid)).contains pid = true) := by
      rw [hcf]
      exact Bool.false_ne_true
    rw [if_neg hcfn] at hs1
    refine ⟨?_, ?_, ?_, ?_⟩
    · rw [hs1]
      exact perm_filter_append u.wishlist pid hnd hmem
    · intro hno
      exact absurd hmem hno
    · intro hno
      exact absurd hmem hno
    · intro _
      rw [ht1]
      exact not_mem_filter_bne _ _
  · have hc : u.wishlist.contains pid = false := by
      rw [← Bool.not_eq_true]
      intro hcc
      exact hmem (List.mem_of_elem_eq_true hcc)
    have hcn : ¬ (u.wishlist.contains pid = true) := by
      rw [hc]
      exact Bool.false_ne_true
    rw [if_neg hcn] at ht1 ht2
    obtain ⟨hs1, hs2⟩ := toggleWishlist_spec (toggleWishlist s uid pid).2 uid pid _ ht2
    dsimp only at hs1 hs2
    have hc1 : (u.wishlist ++ [pid]).contains pid = true :=
      List.elem_eq_true_of_mem (by simp)
    rw [if_pos hc1] at hs1 hs2
    have hfl : (u.wishlist ++ [pid]).filter (fun x => x != pid) = u.wishlist := by
      rw [List.filter_append, filter_bne_of_not_mem u.wishlist pid hmem]
      simp [List.filter_cons, bne_self_eq_false]
    rw [hfl] at hs1 hs2
    refine ⟨?_, ?_, ?_, ?_⟩
    · rw [hs1]
    · intro _
      exact ⟨hs1, by rw [hs2]⟩
    · intro _
      exact ht1
    · intro hm
      exact absurd hm hmem

theorem wishlist_double_toggle_witness :
    List.Perm (toggleWishlist (toggleWishlist c9WitStore "u1" "p1").2 "u1" "p1").1
      c9WitUser.wishlist ∧
    ("p1" ∈ c9WitUser.wishlist →
      "p1" ∉ (toggleWishlist c9WitStore "u1" "p1").1) := by
  have hreach : Reachable c9WitStore :=
    Reachable.step
      (Reachable.step
        (Reachable.step Reachable.init (Step.register initStore "u1" "Ada" "ada@x" rfl))
        (Step.toggleWishlist (register initStore "u1" "Ada" "ada@x") "u1" "p1"))
      (Step.toggleWishlist
        (toggleWishlist (register initStore "u1" "Ada" "ada@x") "u1" "p1").2 "u1" "p2")
  have h := wishlist_double_toggle c9WitStore "u1" "p1" c9WitUser hreach (by decide)
  exact ⟨h.1, h.2.2.2⟩

/-- C10: deleting a saved filter whose id is not stored is a silent no-op:
the call cannot fail for an existing account, it returns the account's
`savedFilters` list exactly as stored, and the stored user document is
unchanged. -/
theorem deleteUserFilter_unknown_noop (s : Store) (uid fid : String) (u : User)
    (hg : getUser s uid = some u) (hnm : ∀ f ∈ u.savedFilters, f.id ≠ fid) :
    (deleteUserFilter s uid fid).1 = u.savedFilters ∧
    getUser (deleteUserFilter s uid fid).2 uid = some u := by
  have hg' : s.users.find? (fun v => v.uid == uid) = some u := hg
  have hfe : u.savedFilters.filter (fun f => f.id != fid) = u.savedFilters :=
    List.filter_eq_self.mpr (fun f hf => bne_iff_ne.mpr (hnm f hf))
  unfold deleteUserFilter
  rw [hg]
  dsimp only
  unfold getUser updateUser
  dsimp only
  rw [find?_map_update_self User.uid
        (fun v => { v with savedFilters := u.savedFilters.filter (fun f => f.id != fid) })
        (fun v => rfl) uid s.users, hg', hfe]
  exact ⟨rfl, rfl⟩

theorem deleteUserFilter_unknown_noop_witness :
    (deleteUserFilter c10Store "u1" "nope").1 = c10User.savedFilters ∧
    getUser (deleteUserFilter c10Store "u1" "nope").2 "u1" = some c10User :=
  deleteUserFilter_unknown_noop c10Store "u1" "nope" c10User rfl (by decide)

end CodeAstra
